import Mathlib

/-!
Shallow embedding of the Photo and Video Organizer pipeline
(`main.py`, `modules/file_organizer.py`, `modules/geolocation_mapper.py`,
`modules/duplicate_detector.py`) and proofs of the specification claims.

Python dictionaries holding optional string values are modelled with
`Option String`; Python truthiness of such a value (`if s:`) is `optTruthy`.
Filesystem moves are modelled by a `moveOk` flag on the source file; the
external geocoding service is modelled by an oracle giving the outcome of
each attempt; the durable geocode cache is an association list.
-/

namespace PhotoOrg

/-- Split a list of characters at every occurrence of `sep`, keeping empty
segments, with `acc` the (reversed) current segment. -/
def splitCharAux (sep : Char) : List Char → List Char → List (List Char)
  | [], acc => [acc.reverse]
  | c :: cs, acc =>
    if c == sep then acc.reverse :: splitCharAux sep cs []
    else splitCharAux sep cs (c :: acc)

/-- `str.split(sep)` for a one-character separator (also the behaviour of
`splitOn` there): consecutive separators yield empty segments. -/
def splitChar (sep : Char) (s : String) : List String :=
  (splitCharAux sep s.toList []).map String.mk

/-- Numeric value of a digit run, `none` on a non-digit. -/
def digitsValAux : List Char → Nat → Option Nat
  | [], acc => some acc
  | c :: cs, acc =>
    if c.isDigit then digitsValAux cs (acc * 10 + (c.toNat - 48)) else none

/-- `int(s)` on a purely numeric string: `some` exactly when `s` is a
non-empty run of decimal digits. -/
def toNatStrict (s : String) : Option Nat :=
  match s.toList with
  | [] => none
  | cs => digitsValAux cs 0

/-- `s.replace(a, b)` for one-character `a`, `b`. -/
def replaceChar (a b : Char) (s : String) : String :=
  String.mk (s.toList.map (fun c => if c == a then b else c))

/-- `s.replace(a, '')` for a one-character `a`. -/
def removeChar (a : Char) (s : String) : String :=
  String.mk (s.toList.filter (fun c => !(c == a)))

/-- `s.endswith(suffixStr)`. -/
def strEndsWith (s suffixStr : String) : Bool :=
  suffixStr.toList.isSuffixOf s.toList

/-- `s.lower()`. -/
def strLower (s : String) : String :=
  String.mk (s.toList.map Char.toLower)

/-- Truthiness of a Python value that is either `None` or a string:
`None` and the empty string are falsy. -/
def optTruthy : Option String → Bool
  | some s => !(s == "")
  | none => false

/-- A `datetime`-like value, as produced by `datetime.strptime` or
`datetime.fromtimestamp` in `file_organizer.py`. -/
structure DateObj where
  year : Nat
  month : Nat
  day : Nat
  hour : Nat
  minute : Nat
  second : Nat
deriving Repr, DecidableEq

/-- Zero-pad to two digits, as `strftime` does for `%m`, `%d`, `%H`, `%M`, `%S`. -/
def pad2 (n : Nat) : String :=
  if n < 10 then "0" ++ toString n else toString n

/-- Zero-pad to four digits, as `strftime` does for `%Y`. -/
def pad4 (n : Nat) : String :=
  if n < 10 then "000" ++ toString n
  else if n < 100 then "00" ++ toString n
  else if n < 1000 then "0" ++ toString n
  else toString n

/-- `strftime('%Y%m%d_%H%M%S')`. -/
def fmtDateStr (d : DateObj) : String :=
  pad4 d.year ++ pad2 d.month ++ pad2 d.day ++ "_" ++
    pad2 d.hour ++ pad2 d.minute ++ pad2 d.second

/-- `strftime('%Y-%m')`. -/
def fmtYearMonth (d : DateObj) : String :=
  pad4 d.year ++ "-" ++ pad2 d.month

/-- Gregorian leap-year test, mirroring `datetime`'s calendar. -/
def isLeap (y : Nat) : Bool :=
  (y % 4 == 0 && y % 100 != 0) || (y % 400 == 0)

/-- Number of days of month `m` in year `y`, mirroring `datetime`'s calendar. -/
def daysInMonth (y m : Nat) : Nat :=
  if m == 2 then (if isLeap y then 29 else 28)
  else if m == 4 || m == 6 || m == 9 || m == 11 then 30
  else 31

/-- `datetime.strptime(s, '%Y:%m:%d %H:%M:%S')`: `none` models the
`ValueError` raised on a non-conforming or out-of-range timestamp. -/
def strptimeYmdHMS (s : String) : Option DateObj :=
  match splitChar ' ' s with
  | [d, t] =>
    match splitChar ':' d, splitChar ':' t with
    | [ys, ms, ds], [hs, mis, ss] =>
      match toNatStrict ys, toNatStrict ms, toNatStrict ds,
          toNatStrict hs, toNatStrict mis, toNatStrict ss with
      | some y, some mo, some da, some h, some mi, some se =>
        if ys.length = 4 ∧ ms.length ≤ 2 ∧ ds.length ≤ 2 ∧ hs.length ≤ 2 ∧
            mis.length ≤ 2 ∧ ss.length ≤ 2 ∧
            1 ≤ y ∧ 1 ≤ mo ∧ mo ≤ 12 ∧ 1 ≤ da ∧ da ≤ daysInMonth y mo ∧
            h ≤ 23 ∧ mi ≤ 59 ∧ se ≤ 59 then
          some ⟨y, mo, da, h, mi, se⟩
        else none
      | _, _, _, _, _, _ => none
    | _, _ => none
  | _ => none

/-- `os.path.basename`: the part of a path after the last `/`. -/
def basenameOf (p : String) : String :=
  (splitChar '/' p).getLastD p

/-- Index of the last `.` in a list of characters, if any. -/
def lastDotIdx (cs : List Char) : Option Nat :=
  ((List.range cs.length).filter (fun i => cs.getD i ' ' == '.')).getLast?

/-- `pathlib.Path(p).suffix`: the extension of the final path component,
empty when the name has no dot, starts with its only dot, or ends in a dot. -/
def pathSuffix (p : String) : String :=
  let cs := (basenameOf p).toList
  match lastDotIdx cs with
  | some i => if 0 < i ∧ i < cs.length - 1 then String.mk (cs.drop i) else ""
  | none => ""

/-- `os.path.join` of two relative-style components. -/
def joinP (a b : String) : String :=
  if strEndsWith a "/" then a ++ b else a ++ "/" ++ b

/-- A source media file: its path, the `DateObj` view of its filesystem
modification time, and whether the `shutil.move` of it would succeed. -/
structure SrcFile where
  path : String
  mtime : DateObj
  moveOk : Bool
deriving Repr, DecidableEq

/-- The user settings dictionary: only the two keys the pipeline reads.
`none` models an absent key, handled by `dict.get(key, default)`. -/
structure Settings where
  duplicate_method : Option String
  naming_convention : Option String
deriving Repr, DecidableEq

/-- The dynamically-typed `location` argument of `rename_and_organize`:
its docstring says `str or None`, but `main.py` passes the whole
`(label, found)` tuple returned by `reverse_geocode`. -/
inductive PyLoc where
  | pynone : PyLoc
  | pystr (s : String) : PyLoc
  | pytuple (s : String) (b : Bool) : PyLoc
deriving Repr, DecidableEq

/-- The date `rename_and_organize` resolves: parse the timestamp in
`%Y:%m:%d %H:%M:%S` form, falling back to the file's modification time
when the timestamp is absent, falsy, or unparsable. -/
def resolvedDate (file : SrcFile) (timestamp : Option String) : DateObj :=
  match timestamp with
  | some ts => if ts = "" then file.mtime else (strptimeYmdHMS ts).getD file.mtime
  | none => file.mtime

/-- `location.replace(' ', '_').replace(',', '') if location else
"Unknown_Location"` for a non-tuple location value. -/
def pyLocStr : PyLoc → String
  | PyLoc.pystr s =>
    if s = "" then "Unknown_Location" else removeChar ',' (replaceChar ' ' '_' s)
  | _ => "Unknown_Location"

/-- `modules/file_organizer.py: rename_and_organize`. Returns the new path,
or `none` when an exception was caught (a tuple `location` raises
`AttributeError` at `location.replace`, and a failing move raises). -/
def rename_and_organize (file : SrcFile) (timestamp : Option String)
    (location : PyLoc) (output_dir : String) (settings : Settings) : Option String :=
  match location with
  | PyLoc.pytuple _ _ => none
  | loc =>
    let date_obj := resolvedDate file timestamp
    let year := pad4 date_obj.year
    let year_month := fmtYearMonth date_obj
    let date_str := fmtDateStr date_obj
    let location_str := pyLocStr loc
    let target_dir := joinP (joinP output_dir year) year_month
    let naming_convention := settings.naming_convention.getD "Date_Location"
    let new_filename :=
      if naming_convention = "Date_Location" then
        date_str ++ "_" ++ location_str ++ pathSuffix file.path
      else if naming_convention = "Date" then
        date_str ++ pathSuffix file.path
      else if naming_convention = "Location" then
        location_str ++ pathSuffix file.path
      else
        date_str ++ "_" ++ location_str ++ pathSuffix file.path
    if file.moveOk then some (joinP target_dir new_filename) else none

/-- A GPS dictionary as built by `extract_image_metadata`: possibly missing
`latitude`/`longitude` keys, in signed decimal degrees. -/
structure GpsDict where
  latitude : Option ℚ
  longitude : Option ℚ
deriving Repr, DecidableEq

/-- One entry of the `address_components` list of a geocoder response:
a list of type tags and an optional `long_name`. -/
structure AddrComponent where
  types : List String
  long_name : Option String
deriving Repr, DecidableEq

/-- The address fields `reverse_geocode` extracts from the components
(`street` is extracted by the source but never used in the label). -/
structure AddrFields where
  city : Option String
  state : Option String
  country : Option String
  street : Option String
  poi : Option String
  landmark : Option String
deriving Repr, DecidableEq

/-- The component scan of `geolocation_mapper.py` lines 89–102: each
matching component overwrites the field, later components winning. -/
def extractFields (comps : List AddrComponent) : AddrFields :=
  comps.foldl
    (fun acc c =>
      let acc := if c.types.contains "point_of_interest" || c.types.contains "establishment"
        then { acc with poi := c.long_name } else acc
      let acc := if c.types.contains "neighborhood" || c.types.contains "sublocality"
        then { acc with landmark := c.long_name } else acc
      let acc := if c.types.contains "locality"
        then { acc with city := c.long_name } else acc
      let acc := if c.types.contains "administrative_area_level_1"
        then { acc with state := c.long_name } else acc
      let acc := if c.types.contains "country"
        then { acc with country := c.long_name } else acc
      let acc := if c.types.contains "route" || c.types.contains "street_number"
        then { acc with street := c.long_name } else acc
      acc)
    ⟨none, none, none, none, none, none⟩

/-- `location_parts` of `geolocation_mapper.py` lines 104–116: an optional
poi-or-landmark element, then always one of the city/state/country triple,
the country, or the literal `Unknown_Location`. -/
def locationParts (f : AddrFields) : List String :=
  let p1 : List String :=
    if optTruthy f.poi then [replaceChar ' ' '_' (f.poi.getD "")]
    else if optTruthy f.landmark then [replaceChar ' ' '_' (f.landmark.getD "")]
    else []
  let p2 : List String :=
    if optTruthy f.city && optTruthy f.state && optTruthy f.country then
      [replaceChar ' ' '_' (f.city.getD "") ++ "_" ++
        replaceChar ' ' '_' (f.state.getD "") ++ "_" ++
        replaceChar ' ' '_' (f.country.getD "")]
    else if optTruthy f.country then [replaceChar ' ' '_' (f.country.getD "")]
    else ["Unknown_Location"]
  p1 ++ p2

/-- `"_".join(location_parts)`. -/
def joinUnderscore : List String → String
  | [] => ""
  | [x] => x
  | x :: xs => x ++ "_" ++ joinUnderscore xs

/-- The location label built from a successful geocoder response. -/
def labelOf (comps : List AddrComponent) : String :=
  joinUnderscore (locationParts (extractFields comps))

/-- Python `round(x, 5)` on a coordinate (tie-breaking aside, which no claim
exercises): round to 5 decimal places. -/
def round5 (x : ℚ) : ℚ :=
  ((round (x * 100000) : ℤ) : ℚ) / 100000

/-- The durable geocode cache: rounded-coordinate key to label.  The JSON
file uses the string `f"{round(lat,5)},{round(lon,5)}"` as key; the rounded
pair determines that string, so the pair itself serves as the key. -/
abbrev GeoCache := List ((ℚ × ℚ) × String)

/-- Dictionary lookup in the cache. -/
def cacheFind (c : GeoCache) (k : ℚ × ℚ) : Option String :=
  match c with
  | [] => none
  | (k', v) :: rest => if k' = k then some v else cacheFind rest k

/-- Dictionary update `cache[key] = value` (newest binding wins). -/
def cacheInsert (c : GeoCache) (k : ℚ × ℚ) (v : String) : GeoCache :=
  (k, v) :: c

/-- Outcome of one `geolocator.reverse` attempt: a raised
`GeocoderTimedOut`/`GeocoderServiceError`, a falsy `location`/`location.raw`,
or a response with its `address_components`. -/
inductive GeoResp where
  | raised : GeoResp
  | noLoc : GeoResp
  | ok (comps : List AddrComponent) : GeoResp
deriving Repr, DecidableEq

/-- The result of `reverse_geocode` together with the cache it leaves behind
and the number of external lookups it performed. -/
structure GeoResult where
  label : String
  found : Bool
  cache : GeoCache
  externalCalls : Nat
deriving Repr, DecidableEq

/-- The `for attempt in range(3)` retry loop of `reverse_geocode`: `fuel`
counts the remaining attempts, `idx` the next attempt number fed to the
oracle, `calls` the external lookups made so far. -/
def attemptLoop (oracle : Nat → GeoResp) (key : ℚ × ℚ) (cache : GeoCache) :
    Nat → Nat → Nat → GeoResult
  | 0, _, calls => ⟨"Unknown_Location", false, cache, calls⟩
  | fuel + 1, idx, calls =>
    match oracle idx with
    | GeoResp.raised => attemptLoop oracle key cache fuel (idx + 1) (calls + 1)
    | GeoResp.noLoc => ⟨"Unknown_Location", false, cache, calls + 1⟩
    | GeoResp.ok comps =>
      let location_str := labelOf comps
      ⟨location_str, true, cacheInsert cache key location_str, calls + 1⟩

/-- `modules/geolocation_mapper.py: reverse_geocode`.  `gps` is the GPS
dictionary or `None`; `apiKey` is whether `GOOGLE_MAPS_API_KEY` is set;
`oracle` gives the outcome of each external attempt. -/
def reverse_geocode (gps : Option GpsDict) (apiKey : Bool) (cache : GeoCache)
    (oracle : Nat → GeoResp) : GeoResult :=
  match gps with
  | none => ⟨"Unknown_Location", false, cache, 0⟩
  | some g =>
    match g.latitude, g.longitude with
    | some lat, some lon =>
      let key := (round5 lat, round5 lon)
      match cacheFind cache key with
      | some label => ⟨label, true, cache, 0⟩
      | none =>
        if apiKey then attemptLoop oracle key cache 3 0 0
        else ⟨"Unknown_Location", false, cache, 0⟩
    | _, _ => ⟨"Unknown_Location", false, cache, 0⟩

/-- A file as seen by `duplicate_detector.py`: its byte content, whether it
can be read (`open`/chunked read succeed), and whether `PIL` can decode it
(for the perceptual strategy). -/
structure DupFile where
  content : List Nat
  readable : Bool
  decodable : Bool
deriving Repr, DecidableEq

/-- `compute_md5`: the digest of the content, `none` when reading raises.
`md5` is the (pure) digest function of `hashlib`. -/
def compute_md5 (md5 : List Nat → String) (f : DupFile) : Option String :=
  if f.readable then some (md5 f.content) else none

/-- `compute_perceptual_hash`: `phash` is the digest function of
`imagehash`; `none` when opening or decoding raises. -/
def compute_perceptual_hash (phash : List Nat → String) (f : DupFile) : Option String :=
  if f.readable && f.decodable then some (phash f.content) else none

/-- The `file_hash` computed by `is_duplicate` after dispatching on
`settings.get('duplicate_method', 'MD5 Hash')` (unknown methods default
to MD5). -/
def fileHashOf (md5 phash : List Nat → String) (settings : Settings)
    (f : DupFile) : Option String :=
  let duplicate_method := settings.duplicate_method.getD "MD5 Hash"
  if duplicate_method = "MD5 Hash" then compute_md5 md5 f
  else if duplicate_method = "Perceptual Hash" then compute_perceptual_hash phash f
  else compute_md5 md5 f

/-- `duplicate_detector.py: is_duplicate`, with the mutation of
`processed_hashes` made explicit: returns the classification and the
updated set (a list of digests). -/
def is_duplicate (md5 phash : List Nat → String) (f : DupFile)
    (processed : List String) (settings : Settings) : Bool × List String :=
  match fileHashOf md5 phash settings f with
  | none => (false, processed)
  | some h => if h ∈ processed then (true, processed) else (false, h :: processed)

/-- The duplicate classification of a run: fold `is_duplicate` over the
files in enumeration order, from the given processed set. -/
def runDuplicates (md5 phash : List Nat → String) (settings : Settings) :
    List DupFile → List String → List Bool × List String
  | [], s => ([], s)
  | f :: fs, s =>
    let r := is_duplicate md5 phash f s settings
    let rest := runDuplicates md5 phash settings fs r.2
    (r.1 :: rest.1, rest.2)

/-- Extension classification of `main.py` lines 93–119: `ext = file.lower()`
then `endswith` against the image tuple, then the video tuple, else the
unsupported branch. -/
inductive FileKind where
  | image : FileKind
  | video : FileKind
  | unsupported : FileKind
deriving Repr, DecidableEq

/-- Which branch of `organize_media` a file name falls into. -/
def classifyFile (file : String) : FileKind :=
  let ext := strLower file
  if strEndsWith ext ".jpg" || strEndsWith ext ".jpeg" || strEndsWith ext ".png" ||
      strEndsWith ext ".tiff" || strEndsWith ext ".bmp" then FileKind.image
  else if strEndsWith ext ".mp4" || strEndsWith ext ".mov" || strEndsWith ext ".avi" ||
      strEndsWith ext ".mkv" || strEndsWith ext ".wmv" then FileKind.video
  else FileKind.unsupported

/-- The metadata dictionary returned by `extract_image_metadata`. -/
structure Metadata where
  timestamp : Option String
  gps : Option GpsDict
deriving Repr, DecidableEq

/-- The image branch of `organize_media` (`main.py` lines 95–109) for one
file: on extraction failure the file is skipped; otherwise
`reverse_geocode` runs and its whole `(label, found)` tuple is passed to
`rename_and_organize` as the `location` argument, exactly as the source
does.  Returns the new path (or `none`) and the cache left behind. -/
def processImage (file : SrcFile) (metadata : Option Metadata) (apiKey : Bool)
    (cache : GeoCache) (oracle : Nat → GeoResp) (output_dir : String)
    (settings : Settings) : Option String × GeoCache :=
  match metadata with
  | none => (none, cache)
  | some md =>
    let location := reverse_geocode md.gps apiKey cache oracle
    (rename_and_organize file md.timestamp (PyLoc.pytuple location.label location.found)
      output_dir settings, location.cache)

/-- The pause/cancel flag values one loop iteration of `organize_media`
observes: the cancel flag at the top-of-iteration check (`main.py` line 54),
and whether the pause flag is set when the pause block is reached
(line 61).  The wait loop only sleeps; it re-checks neither flag's effect on
control flow, so a cancel requested during the pause is first seen by the
NEXT iteration's check. -/
structure IterFlags where
  cancelAtCheck : Bool
  pausedHere : Bool
deriving Repr, DecidableEq

/-- Terminal outcome of the enumeration loop. -/
inductive RunOutcome where
  | cancelled : RunOutcome
  | completed : RunOutcome
deriving Repr, DecidableEq

/-- The control skeleton of the `organize_media` loop over the enumerated
files, each paired with the flag values its iteration observes: returns the
files actually processed (in order) and the outcome.  A set cancel flag at
the check ends the run; the pause wait has no effect on control flow and
the iteration then processes its file. -/
def organizeLoop {α : Type} : List (α × IterFlags) → List α × RunOutcome
  | [] => ([], RunOutcome.completed)
  | (f, flags) :: rest =>
    if flags.cancelAtCheck then ([], RunOutcome.cancelled)
    else
      let r := organizeLoop rest
      (f :: r.1, r.2)

/-- The filename stem the specification prescribes per naming convention,
phrased from the spec's words for comparison with `rename_and_organize`:
`Date` and `Location` select their single field, everything else — the
`Date_Location` convention and any unrecognized value — the combined form. -/
def stemFor (nc dateStr locStr : String) : String :=
  if nc = "Date" then dateStr
  else if nc = "Location" then locStr
  else dateStr ++ "_" ++ locStr

/-- The labelling rule the amended C3 states, phrased from the amended
claim's words: an optional poi-or-landmark piece (poi preferred over
landmark) joined in front of exactly one of the city/state/country triple,
the country alone, or the literal `Unknown_Location`. -/
def amendedLabel (f : AddrFields) : String :=
  let poiPiece :=
    if optTruthy f.poi then replaceChar ' ' '_' (f.poi.getD "") ++ "_"
    else if optTruthy f.landmark then replaceChar ' ' '_' (f.landmark.getD "") ++ "_"
    else ""
  let mainPiece :=
    if optTruthy f.city && optTruthy f.state && optTruthy f.country then
      replaceChar ' ' '_' (f.city.getD "") ++ "_" ++
        replaceChar ' ' '_' (f.state.getD "") ++ "_" ++
        replaceChar ' ' '_' (f.country.getD "")
    else if optTruthy f.country then replaceChar ' ' '_' (f.country.getD "")
    else "Unknown_Location"
  poiPiece ++ mainPiece

/-- C1 scenario: the input file `IMG_0001.jpg` (its modification time is
irrelevant, the timestamp parses). -/
def c1File : SrcFile := ⟨"input/IMG_0001.jpg", ⟨2020, 1, 1, 0, 0, 0⟩, true⟩

/-- C1 scenario: metadata with `DateTimeOriginal` and GPS `(40.8109, -96.6901)`. -/
def c1Meta : Metadata :=
  ⟨some "2023:05:01 14:30:00", some ⟨some (408109 / 10000), some (-966901 / 10000)⟩⟩

/-- C1 scenario: one successful geocode call returning city `Lincoln` and
country `USA`. -/
def c1Oracle : Nat → GeoResp :=
  fun _ => GeoResp.ok [⟨["locality"], some "Lincoln"⟩, ⟨["country"], some "USA"⟩]

/-- C1 scenario: naming convention `Date_Location`. -/
def c1Settings : Settings := ⟨some "MD5 Hash", some "Date_Location"⟩

/-- C3 counterexample: a successful response carrying a point of interest
together with a full city/state/country triple. -/
def c3Comps : List AddrComponent :=
  [⟨["point_of_interest"], some "Sunken Gardens"⟩,
   ⟨["locality"], some "Lincoln"⟩,
   ⟨["administrative_area_level_1"], some "Nebraska"⟩,
   ⟨["country"], some "United States"⟩]

/-- C10 witness: a response whose components carry only a street route —
no poi, no landmark, no city/state/country. -/
def c10Comps : List AddrComponent := [⟨["route"], some "O Street"⟩]

/-- C3 counterexample oracle: the first attempt succeeds with `c3Comps`. -/
def c3Oracle : Nat → GeoResp := fun _ => GeoResp.ok c3Comps

/-- C6 witness oracle: the first attempt succeeds with a country-only
address. -/
def c6Oracle : Nat → GeoResp := fun _ => GeoResp.ok [⟨["country"], some "France"⟩]

/-- C7 counterexample schedule: iteration 0's cancel check sees a clear
flag, then the iteration pauses; cancel is requested during the pause, so
iteration 1's check sees it set. -/
def c7Sched : List (Nat × IterFlags) := [(0, ⟨false, true⟩), (1, ⟨true, false⟩)]

/-- C4 witness: a readable, decodable file with content `[1, 2]`. -/
def c4FileA : DupFile := ⟨[1, 2], true, true⟩

/-- C9 witness: an unreadable file (hashing fails). -/
def c9FileBad : DupFile := ⟨[7], false, true⟩

/-- C9 witness: a readable file with the same content as `c9FileBad`. -/
def c9FileGood : DupFile := ⟨[7], true, true⟩

/-- C8 witness: a source file `in/a.jpg` with a parseable timestamp. -/
def c8File : SrcFile := ⟨"in/a.jpg", ⟨2020, 1, 1, 0, 0, 0⟩, true⟩

/-! ## Theorems -/

/-- C1 (counterexample): on the scenario input — `IMG_0001.jpg`,
`DateTimeOriginal = "2023:05:01 14:30:00"`, GPS `(40.8109, -96.6901)`,
naming convention `Date_Location`, empty cache, one geocode success with
city `Lincoln` and country `USA` — the pipeline does NOT produce the
destination `output/2023/2023-05/20230501_143000_Lincoln_USA.jpg`. -/
theorem c1_counterexample :
    (processImage c1File (some c1Meta) true [] c1Oracle "output" c1Settings).1 ≠
      some "output/2023/2023-05/20230501_143000_Lincoln_USA.jpg" := by
  intro h
  rw [show (processImage c1File (some c1Meta) true [] c1Oracle "output"
      c1Settings).1 = none from rfl] at h
  exact Option.noConfusion h

/-- C1 (amended): on the scenario input the geocode label is `USA` — city
without state falls through to the country-only branch — and that label is
cached under the rounded key; the rename step, handed the whole
`(label, found)` tuple as its location, fails internally and returns `none`,
so the file is not relocated. -/
theorem c1_amended_outcome :
    processImage c1File (some c1Meta) true [] c1Oracle "output" c1Settings =
        (none, [((round5 (408109 / 10000), round5 (-966901 / 10000)), "USA")]) ∧
      round5 (408109 / 10000) = 408109 / 10000 ∧
      round5 (-966901 / 10000) = -966901 / 10000 := by
  refine ⟨rfl, ?_, ?_⟩ <;> (unfold round5; rw [round_eq]; norm_num)

/-- C2 (failing input): `main.py`'s image-extension tuple omits `.heic`,
so a `.heic` file falls into the unsupported branch — logged and skipped —
instead of being processed as an image. -/
theorem c2_heic_unsupported :
    classifyFile "IMG_0002.heic" = FileKind.unsupported ∧
      FileKind.unsupported ≠ FileKind.image := by
  exact ⟨rfl, by decide⟩

/-- C7 (counterexample): with cancel requested during iteration 0's pause
(so only iteration 1's top-of-loop check observes it), file 0 — whose
processing had not started before the pause — is still processed after
resume: the run does not stop without processing any further file. -/
theorem c7_counterexample :
    organizeLoop c7Sched = ([0], RunOutcome.cancelled) ∧
      (organizeLoop c7Sched).1 ≠ [] := by
  refine ⟨rfl, ?_⟩
  decide

/-- Helper for C4: once the digest of content `c` is in the processed set,
every further file with content `c` is classified a duplicate and the set
is unchanged. -/
theorem runDuplicates_all_duplicate (md5 phash : List Nat → String)
    (settings : Settings) (hset : settings.duplicate_method = some "MD5 Hash")
    (c : List Nat) :
    ∀ (fs : List DupFile) (s : List String),
      (∀ f ∈ fs, f.content = c ∧ f.readable = true) → md5 c ∈ s →
      runDuplicates md5 phash settings fs s = (List.replicate fs.length true, s) := by
  intro fs
  induction fs with
  | nil => intro s _ _; rfl
  | cons f fs ih =>
    intro s hall hmem
    obtain ⟨hc, hr⟩ := hall f (by simp)
    simp only [runDuplicates, is_duplicate, fileHashOf, hset, Option.getD_some,
      if_pos rfl, compute_md5, hr, if_true, hc, hmem, if_pos hmem]
    simp only [ih s (fun g hg => hall g (by simp [hg])) hmem]
    simp [List.replicate]

/-- C4: in a run over files of identical content under the exact (MD5)
strategy, starting from the empty processed set, the first file is
classified `Original` (not a duplicate) and every later one `Duplicate`,
deterministically in enumeration order. -/
theorem c4_first_original_rest_duplicate (md5 phash : List Nat → String)
    (settings : Settings) (hset : settings.duplicate_method = some "MD5 Hash")
    (c : List Nat) (files : List DupFile)
    (hall : ∀ f ∈ files, f.content = c ∧ f.readable = true) (hne : files ≠ []) :
    (runDuplicates md5 phash settings files []).1 =
      false :: List.replicate (files.length - 1) true := by
  cases files with
  | nil => exact absurd rfl hne
  | cons f fs =>
    obtain ⟨hc, hr⟩ := hall f (by simp)
    simp only [runDuplicates, is_duplicate, fileHashOf, hset, Option.getD_some,
      if_pos rfl, compute_md5, hr, if_true, hc]
    rw [if_neg (by simp)]
    rw [runDuplicates_all_duplicate md5 phash settings hset c fs (md5 c :: [])
      (fun g hg => hall g (by simp [hg])) (by simp)]
    simp

/-- C4 witness: two identical files under MD5; the first is original, the
second a duplicate. -/
theorem c4_witness :
    (runDuplicates (fun _ => "d41d8") (fun _ => "p") ⟨some "MD5 Hash", none⟩
        [c4FileA, c4FileA] []).1 = [false, true] :=
  c4_first_original_rest_duplicate (fun _ => "d41d8") (fun _ => "p")
    ⟨some "MD5 Hash", none⟩ rfl [1, 2] [c4FileA, c4FileA] (by decide) (by decide)

/-- C9: a file whose hash computation fails is classified not-a-duplicate
and inserts nothing, so a later file of identical content that hashes
successfully is still classified `Original`. -/
theorem c9_hash_failure_no_pollution (md5 phash : List Nat → String)
    (settings : Settings) (f g : DupFile) (s : List String) (d : String)
    (h1 : fileHashOf md5 phash settings f = none)
    (h2 : g.content = f.content)
    (h3 : fileHashOf md5 phash settings g = some d)
    (h4 : d ∉ s) :
    runDuplicates md5 phash settings [f, g] s = ([false, false], d :: s) := by
  simp [runDuplicates, is_duplicate, h1, h3, h4]

/-- C9 witness: an unreadable file followed by a readable file of the same
content — both classified not-a-duplicate, only the second inserted. -/
theorem c9_witness :
    runDuplicates (fun _ => "h7") (fun _ => "p") ⟨some "MD5 Hash", none⟩
        [c9FileBad, c9FileGood] [] = ([false, false], ["h7"]) :=
  c9_hash_failure_no_pollution (fun _ => "h7") (fun _ => "p")
    ⟨some "MD5 Hash", none⟩ c9FileBad c9FileGood [] "h7" rfl rfl rfl (by simp)

/-- C5: `reverse_geocode` degrades gracefully instead of raising: with no
coordinates (absent GPS data or a missing latitude/longitude) it returns
`("Unknown_Location", found := false)` making no external call, and when
all three attempts raise timeout/service errors it likewise returns
`("Unknown_Location", found := false)`. -/
theorem c5_graceful_degradation (gps : Option GpsDict) (apiKey : Bool)
    (cache : GeoCache) (oracle : Nat → GeoResp) :
    ((gps = none ∨ ∃ g, gps = some g ∧ (g.latitude = none ∨ g.longitude = none)) →
        reverse_geocode gps apiKey cache oracle =
          ⟨"Unknown_Location", false, cache, 0⟩) ∧
      (∀ g lat lon, gps = some g → g.latitude = some lat → g.longitude = some lon →
        cacheFind cache (round5 lat, round5 lon) = none →
        (∀ i, i < 3 → oracle i = GeoResp.raised) →
        (reverse_geocode gps apiKey cache oracle).label = "Unknown_Location" ∧
          (reverse_geocode gps apiKey cache oracle).found = false) := by
  constructor
  · rintro (rfl | ⟨g, rfl, hg⟩)
    · rfl
    · rcases hlat : g.latitude with _ | lat <;> rcases hlon : g.longitude with _ | lon <;>
        simp_all [reverse_geocode]
  · rintro g lat lon rfl hlat hlon hmiss hfail
    have h0 := hfail 0 (by omega)
    have h1 := hfail 1 (by omega)
    have h2 := hfail 2 (by omega)
    cases apiKey <;>
      simp [reverse_geocode, hlat, hlon, hmiss, attemptLoop, h0, h1, h2]

/-- C5 witness: instances of both degradation cases at concrete inputs. -/
theorem c5_witness :
    reverse_geocode none true [] (fun _ => GeoResp.raised) =
        ⟨"Unknown_Location", false, [], 0⟩ ∧
      (reverse_geocode (some ⟨some 1, some 2⟩) true [] (fun _ => GeoResp.raised)).label =
          "Unknown_Location" ∧
        (reverse_geocode (some ⟨some 1, some 2⟩) true [] (fun _ => GeoResp.raised)).found =
          false :=
  ⟨(c5_graceful_degradation none true [] (fun _ => GeoResp.raised)).1 (Or.inl rfl),
    (c5_graceful_degradation (some ⟨some 1, some 2⟩) true [] (fun _ => GeoResp.raised)).2
      ⟨some 1, some 2⟩ 1 2 rfl rfl rfl rfl (fun _ _ => rfl)⟩

/-- C7 (amended): when the cancel flag is first observed set only at the
iteration after the pause — the situation produced by requesting cancel
while paused — the file whose iteration had already passed the cancel check
is still processed after resume; the run then cancels before any later file,
and the already-processed files are exactly the earlier ones plus that
file. -/
theorem c7_amended {α : Type} (pre : List (α × IterFlags)) (f : α)
    (flags : IterFlags) (rest : List (α × IterFlags))
    (hpre : ∀ p ∈ pre, p.2.cancelAtCheck = false)
    (hf : flags.cancelAtCheck = false) (hp : flags.pausedHere = true)
    (hrest : ∀ p ∈ rest, p.2.cancelAtCheck = true) (hne : rest ≠ []) :
    organizeLoop (pre ++ (f, flags) :: rest) =
      (pre.map Prod.fst ++ [f], RunOutcome.cancelled) := by
  induction pre with
  | nil =>
    cases rest with
    | nil => exact absurd rfl hne
    | cons r rest' =>
      obtain ⟨a, b⟩ := r
      have hr : b.cancelAtCheck = true := hrest (a, b) (by simp)
      simp [organizeLoop, hf, hr]
  | cons p pre' ih =>
    obtain ⟨a, b⟩ := p
    have hb : b.cancelAtCheck = false := hpre (a, b) (by simp)
    have := ih (fun q hq => hpre q (by simp [hq]))
    simp only [List.cons_append, organizeLoop, hb, Bool.false_eq_true, if_false, this]
    simp [this]

/-- C7 (amended) witness: one file before the pause, the paused iteration's
file, then a file whose check observes the cancel: the first two are
processed, the run cancels. -/
theorem c7_amended_witness :
    organizeLoop [((0 : Nat), ⟨false, false⟩), (1, ⟨false, true⟩), (2, ⟨true, false⟩)] =
      ([0, 1], RunOutcome.cancelled) :=
  c7_amended [((0 : Nat), ⟨false, false⟩)] 1 ⟨false, true⟩ [(2, ⟨true, false⟩)]
    (by decide) rfl rfl (by decide) (by decide)

/-- C8: every successful relocation lands in
`<output_root>/<year>/<year>-<month>` for the resolved date, with the stem
given by the configured naming convention (`Date_Location`, `Date`,
`Location`, anything unrecognized defaulting to `Date_Location`) and the
source file's extension preserved verbatim. -/
theorem c8_destination_shape (file : SrcFile) (timestamp : Option String)
    (location : PyLoc) (output_dir : String) (settings : Settings) (p : String)
    (h : rename_and_organize file timestamp location output_dir settings = some p) :
    p = joinP
        (joinP (joinP output_dir (pad4 (resolvedDate file timestamp).year))
          (fmtYearMonth (resolvedDate file timestamp)))
        (stemFor (settings.naming_convention.getD "Date_Location")
            (fmtDateStr (resolvedDate file timestamp)) (pyLocStr location) ++
          pathSuffix file.path) := by
  rcases hmv : file.moveOk with _ | _ <;> cases location <;>
      simp only [rename_and_organize, hmv, Bool.false_eq_true, if_false,
        reduceCtorEq, if_true, Option.some.injEq] at h
  all_goals (
    subst h
    rcases hnc : settings.naming_convention.getD "Date_Location" with nc
    by_cases h1 : nc = "Date_Location" <;> by_cases h2 : nc = "Date" <;>
      by_cases h3 : nc = "Location" <;>
      simp_all [stemFor, String.append_assoc])

/-- C8 witness: a concrete relocation under the `Date` convention. -/
theorem c8_destination_witness :
    ("output/2023/2023-05/20230501_143000.jpg" : String) =
      joinP
        (joinP (joinP "output" (pad4 (resolvedDate c8File (some "2023:05:01 14:30:00")).year))
          (fmtYearMonth (resolvedDate c8File (some "2023:05:01 14:30:00"))))
        (stemFor ((⟨none, some "Date"⟩ : Settings).naming_convention.getD "Date_Location")
            (fmtDateStr (resolvedDate c8File (some "2023:05:01 14:30:00")))
            (pyLocStr (PyLoc.pystr "Lincoln, NE")) ++
          pathSuffix c8File.path) :=
  c8_destination_shape c8File (some "2023:05:01 14:30:00") (PyLoc.pystr "Lincoln, NE")
    "output" ⟨none, some "Date"⟩ "output/2023/2023-05/20230501_143000.jpg" rfl

/-- Helper: when the first `k` attempts raise and attempt `k` (within the
retry budget) returns a response, the retry loop succeeds with that
response's label, caches it, and has made `k + 1` external calls. -/
theorem attemptLoop_reaches_ok (oracle : Nat → GeoResp) (key : ℚ × ℚ)
    (cache : GeoCache) (comps : List AddrComponent) :
    ∀ (k fuel idx calls : Nat), k < fuel →
      (∀ j, j < k → oracle (idx + j) = GeoResp.raised) →
      oracle (idx + k) = GeoResp.ok comps →
      attemptLoop oracle key cache fuel idx calls =
        ⟨labelOf comps, true, cacheInsert cache key (labelOf comps), calls + k + 1⟩ := by
  intro k
  induction k with
  | zero =>
    intro fuel idx calls hk hraised hok
    cases fuel with
    | zero => omega
    | succ fuel =>
      rw [show idx + 0 = idx from rfl] at hok
      simp [attemptLoop, hok, labelOf]
  | succ k ih =>
    intro fuel idx calls hk hraised hok
    cases fuel with
    | zero => omega
    | succ fuel =>
      have h0 : oracle idx = GeoResp.raised := by
        have := hraised 0 (by omega)
        simpa using this
      have hrec := ih fuel (idx + 1) (calls + 1) (by omega)
        (fun j hj => by
          rw [show idx + 1 + j = idx + (j + 1) by omega]
          exact hraised (j + 1) (by omega))
        (by rw [show idx + 1 + k = idx + (k + 1) by omega]; exact hok)
      simp only [attemptLoop, h0, hrec]
      have : calls + 1 + k + 1 = calls + (k + 1) + 1 := by omega
      rw [this]

/-- Helper: the label built by the source — the join of `location_parts` —
equals the amended-claim formulation `amendedLabel`. -/
theorem labelParts_eq_amended (f : AddrFields) :
    joinUnderscore (locationParts f) = amendedLabel f := by
  unfold locationParts amendedLabel
  rcases hpoi : optTruthy f.poi with _ | _ <;>
    rcases hlm : optTruthy f.landmark with _ | _ <;>
    rcases ht : (optTruthy f.city && optTruthy f.state && optTruthy f.country) with _ | _ <;>
    rcases hco : optTruthy f.country with _ | _ <;>
    simp_all [joinUnderscore, String.append_assoc]

/-- Helper: whenever `reverse_geocode`'s retry loop reports `found`, the
cache it leaves behind maps the key to the reported label. -/
theorem attemptLoop_found_cached (oracle : Nat → GeoResp) (key : ℚ × ℚ)
    (cache : GeoCache) :
    ∀ fuel idx calls,
      (attemptLoop oracle key cache fuel idx calls).found = true →
      cacheFind (attemptLoop oracle key cache fuel idx calls).cache key =
        some (attemptLoop oracle key cache fuel idx calls).label := by
  intro fuel
  induction fuel with
  | zero => intro idx calls h; simp [attemptLoop] at h
  | succ fuel ih =>
    intro idx calls h
    rcases ho : oracle idx with _ | _ | comps
    · simp only [attemptLoop, ho] at h ⊢
      exact ih _ _ h
    · simp [attemptLoop, ho] at h
    · simp [attemptLoop, ho, cacheInsert, cacheFind]

/-- Helper: a `found` result of `reverse_geocode` always leaves the rounded
key mapped to the returned label in the resulting cache. -/
theorem found_label_cached (g : GpsDict) (lat lon : ℚ) (apiKey : Bool)
    (cache : GeoCache) (oracle : Nat → GeoResp)
    (hlat : g.latitude = some lat) (hlon : g.longitude = some lon)
    (hfound : (reverse_geocode (some g) apiKey cache oracle).found = true) :
    cacheFind (reverse_geocode (some g) apiKey cache oracle).cache
        (round5 lat, round5 lon) =
      some (reverse_geocode (some g) apiKey cache oracle).label := by
  simp only [reverse_geocode, hlat, hlon] at hfound ⊢
  rcases hc : cacheFind cache (round5 lat, round5 lon) with _ | label
  · rw [hc] at hfound
    cases apiKey
    · exact Bool.noConfusion hfound
    · exact attemptLoop_found_cached oracle (round5 lat, round5 lon) cache 3 0 0 hfound
  · exact hc

/-- Helper: a cache hit returns the cached label with `found = true`,
leaves the cache unchanged, and makes no external call. -/
theorem reverse_geocode_cache_hit (g : GpsDict) (lat lon : ℚ) (apiKey : Bool)
    (cache : GeoCache) (oracle : Nat → GeoResp) (label : String)
    (hlat : g.latitude = some lat) (hlon : g.longitude = some lon)
    (hfind : cacheFind cache (round5 lat, round5 lon) = some label) :
    reverse_geocode (some g) apiKey cache oracle = ⟨label, true, cache, 0⟩ := by
  simp only [reverse_geocode, hlat, hlon, hfind]

/-- C3 (counterexample): a cache-miss success whose address carries a point
of interest together with a full city/state/country triple yields the label
`Sunken_Gardens_Lincoln_Nebraska_United_States` — the concatenation of the
poi with the triple, which is none of the claim's four mutually exclusive
alternatives (poi alone, triple alone, country alone, `Unknown_Location`). -/
theorem c3_counterexample :
    (reverse_geocode (some ⟨some 1, some 2⟩) true [] c3Oracle).label =
        "Sunken_Gardens_Lincoln_Nebraska_United_States" ∧
      "Sunken_Gardens_Lincoln_Nebraska_United_States" ≠ "Sunken_Gardens" ∧
      "Sunken_Gardens_Lincoln_Nebraska_United_States" ≠ "Lincoln_Nebraska_United_States" ∧
      "Sunken_Gardens_Lincoln_Nebraska_United_States" ≠ "United_States" ∧
      "Sunken_Gardens_Lincoln_Nebraska_United_States" ≠ "Unknown_Location" := by
  refine ⟨rfl, ?_, ?_, ?_, ?_⟩ <;> decide

/-- C3 (amended): on a cache-miss success, the label is an optional
poi-or-landmark piece (poi preferred over landmark) joined in front of
exactly one of: the city+state+country combination (all three present),
the country alone, or the literal `Unknown_Location`. -/
theorem c3_amended_label (g : GpsDict) (lat lon : ℚ) (cache : GeoCache)
    (oracle : Nat → GeoResp) (comps : List AddrComponent) (k : Nat)
    (hlat : g.latitude = some lat) (hlon : g.longitude = some lon)
    (hmiss : cacheFind cache (round5 lat, round5 lon) = none)
    (hk : k < 3) (hraised : ∀ j, j < k → oracle j = GeoResp.raised)
    (hok : oracle k = GeoResp.ok comps) :
    (reverse_geocode (some g) true cache oracle).label =
      amendedLabel (extractFields comps) := by
  simp only [reverse_geocode, hlat, hlon, hmiss, if_true]
  rw [attemptLoop_reaches_ok oracle (round5 lat, round5 lon) cache comps k 3 0 0 hk
    (fun j hj => by simpa using hraised j hj) (by simpa using hok)]
  exact labelParts_eq_amended (extractFields comps)

/-- C3 (amended) witness: the poi + triple address of the counterexample,
resolved on the first attempt, matches the amended labelling rule. -/
theorem c3_amended_witness :
    (reverse_geocode (some ⟨some 1, some 2⟩) true [] c3Oracle).label =
      amendedLabel (extractFields c3Comps) :=
  c3_amended_label ⟨some 1, some 2⟩ 1 2 [] c3Oracle c3Comps 0 rfl rfl rfl
    (by omega) (fun j hj => absurd hj (by omega)) rfl

/-- C6: once a coordinate pair resolves successfully (`found = true`), a
second `reverse_geocode` call whose coordinates round to the same 5-decimal
key returns the identical label as a cache hit — `found = true` and zero
external calls — whatever the second call's oracle or API-key state. -/
theorem c6_cache_roundtrip (g g2 : GpsDict) (lat lon lat2 lon2 : ℚ)
    (cache : GeoCache) (oracle oracle2 : Nat → GeoResp) (apiKey2 : Bool)
    (h1 : g.latitude = some lat) (h2 : g.longitude = some lon)
    (h3 : g2.latitude = some lat2) (h4 : g2.longitude = some lon2)
    (hkLat : round5 lat2 = round5 lat) (hkLon : round5 lon2 = round5 lon)
    (hfound : (reverse_geocode (some g) true cache oracle).found = true) :
    (reverse_geocode (some g2) apiKey2
          (reverse_geocode (some g) true cache oracle).cache oracle2).label =
        (reverse_geocode (some g) true cache oracle).label ∧
      (reverse_geocode (some g2) apiKey2
          (reverse_geocode (some g) true cache oracle).cache oracle2).found = true ∧
      (reverse_geocode (some g2) apiKey2
          (reverse_geocode (some g) true cache oracle).cache
          oracle2).externalCalls = 0 := by
  have hcache := found_label_cached g lat lon true cache oracle h1 h2 hfound
  have hhit := reverse_geocode_cache_hit g2 lat2 lon2 apiKey2
    (reverse_geocode (some g) true cache oracle).cache oracle2
    (reverse_geocode (some g) true cache oracle).label h3 h4
    (by rw [hkLat, hkLon]; exact hcache)
  refine ⟨?_, ?_, ?_⟩ <;> rw [hhit]

/-- C6 witness: resolve `(1, 2)` against an empty cache, then look the same
pair up again — the cached label comes back with no external call. -/
theorem c6_roundtrip_witness :
    (reverse_geocode (some ⟨some 1, some 2⟩) false
          (reverse_geocode (some ⟨some 1, some 2⟩) true [] c6Oracle).cache
          (fun _ => GeoResp.raised)).label =
        (reverse_geocode (some ⟨some 1, some 2⟩) true [] c6Oracle).label ∧
      (reverse_geocode (some ⟨some 1, some 2⟩) false
          (reverse_geocode (some ⟨some 1, some 2⟩) true [] c6Oracle).cache
          (fun _ => GeoResp.raised)).found = true ∧
      (reverse_geocode (some ⟨some 1, some 2⟩) false
          (reverse_geocode (some ⟨some 1, some 2⟩) true [] c6Oracle).cache
          (fun _ => GeoResp.raised)).externalCalls = 0 :=
  c6_cache_roundtrip ⟨some 1, some 2⟩ ⟨some 1, some 2⟩ 1 2 1 2 [] c6Oracle
    (fun _ => GeoResp.raised) false rfl rfl rfl rfl rfl rfl rfl

/-- C10: a successful lookup whose address has no poi, no landmark, no
complete city/state/country triple and no country yields the label
`Unknown_Location` with `found = true`, persists `Unknown_Location` into
the cache under the rounded key, and every later lookup of that key is a
cache hit returning `Unknown_Location` with `found = true` and no external
call. -/
theorem c10_unknown_label_found_true (g : GpsDict) (lat lon : ℚ)
    (cache : GeoCache) (oracle : Nat → GeoResp) (comps : List AddrComponent)
    (hlat : g.latitude = some lat) (hlon : g.longitude = some lon)
    (hmiss : cacheFind cache (round5 lat, round5 lon) = none)
    (hok : oracle 0 = GeoResp.ok comps)
    (hpoi : optTruthy (extractFields comps).poi = false)
    (hlm : optTruthy (extractFields comps).landmark = false)
    (htriple : (optTruthy (extractFields comps).city &&
        optTruthy (extractFields comps).state &&
        optTruthy (extractFields comps).country) = false)
    (hcountry : optTruthy (extractFields comps).country = false) :
    reverse_geocode (some g) true cache oracle =
        ⟨"Unknown_Location", true,
          cacheInsert cache (round5 lat, round5 lon) "Unknown_Location", 1⟩ ∧
      ∀ (apiKey2 : Bool) (oracle2 : Nat → GeoResp),
        reverse_geocode (some g) apiKey2
            (cacheInsert cache (round5 lat, round5 lon) "Unknown_Location") oracle2 =
          ⟨"Unknown_Location", true,
            cacheInsert cache (round5 lat, round5 lon) "Unknown_Location", 0⟩ := by
  have hlabel : labelOf comps = "Unknown_Location" := by
    unfold labelOf locationParts
    simp [hpoi, hlm, htriple, hcountry, joinUnderscore]
  constructor
  · simp only [reverse_geocode, hlat, hlon, hmiss, if_true]
    rw [attemptLoop_reaches_ok oracle (round5 lat, round5 lon) cache comps 0 3 0 0
      (by omega) (fun j hj => absurd hj (by omega)) (by simpa using hok)]
    rw [hlabel]
  · intro apiKey2 oracle2
    exact reverse_geocode_cache_hit g lat lon apiKey2 _ oracle2 "Unknown_Location"
      hlat hlon (by simp [cacheInsert, cacheFind])

/-- C10 witness: a response carrying only a street route, resolved against
an empty cache at `(1, 2)`. -/
theorem c10_witness :
    reverse_geocode (some ⟨some 1, some 2⟩) true [] (fun _ => GeoResp.ok c10Comps) =
        ⟨"Unknown_Location", true,
          cacheInsert [] (round5 1, round5 2) "Unknown_Location", 1⟩ ∧
      ∀ (apiKey2 : Bool) (oracle2 : Nat → GeoResp),
        reverse_geocode (some ⟨some 1, some 2⟩) apiKey2
            (cacheInsert [] (round5 1, round5 2) "Unknown_Location") oracle2 =
          ⟨"Unknown_Location", true,
            cacheInsert [] (round5 1, round5 2) "Unknown_Location", 0⟩ :=
  c10_unknown_label_found_true ⟨some 1, some 2⟩ 1 2 [] (fun _ => GeoResp.ok c10Comps)
    c10Comps rfl rfl rfl rfl rfl rfl rfl rfl

end PhotoOrg
